import Mathlib

/-!
Verification of the DQN trainer in `DQN_PyTorch.py`.

The file shallowly embeds the value network, the training step
(`DQN.train_step`), the constructor's checkpoint-loading logic
(`DQN.__init__`) and the checkpoint save (`DQN.save_ckpt`) over the
rationals, and proves the specification's testable properties about them.

Numeric convention: tensor entries are modelled as `ℚ` (exact arithmetic in
place of IEEE floats); tensors are total functions out of `Fin` index types.
Paths are modelled as `List Char`, and the Python string operations the
source uses (`str.split`, negative indexing, `int(...)`) are embedded with
Python's semantics.
-/

/-! ### Python string primitives used by `DQN.__init__` -/

/-- Python `s.split(sep)` for a one-character separator (no maxsplit):
splits on every occurrence of `sep`, keeping empty fields, and returns
`['']` on the empty string. -/
def pySplit (sep : Char) : List Char → List (List Char)
  | [] => [[]]
  | c :: rest =>
    let r := pySplit sep rest
    if c = sep then [] :: r
    else
      match r with
      | [] => [[c]]
      | g :: gs => (c :: g) :: gs

/-- Python `l[-2]`: the second-to-last element, raising `IndexError`
(modelled as `none`) when the list has fewer than two elements. -/
def pyGetNeg2 {α : Type} (l : List α) : Option α :=
  if 2 ≤ l.length then l.get? (l.length - 2) else none

/-- Leading and trailing whitespace removal, as Python `int(...)` performs
on its string argument. -/
def trimWs (cs : List Char) : List Char :=
  ((cs.dropWhile (fun c => c.isWhitespace)).reverse.dropWhile
    (fun c => c.isWhitespace)).reverse

/-- Checks a digit string after its first character: digits, with single
underscores allowed only between digits (Python numeric-literal rule). -/
def pyDigitsRest : List Char → Bool
  | [] => true
  | '_' :: c :: rest => c.isDigit && pyDigitsRest rest
  | c :: rest => c.isDigit && pyDigitsRest rest

/-- A valid unsigned body for Python `int(...)`: nonempty, starts with a
digit, and satisfies the underscore placement rule. -/
def pyDigitsOk : List Char → Bool
  | [] => false
  | c :: rest => c.isDigit && pyDigitsRest rest

/-- Base-10 value of a digit string, skipping grouping underscores. -/
def pyDigitsVal (cs : List Char) : ℕ :=
  cs.foldl (fun acc c => if c = '_' then acc else 10 * acc + (c.toNat - 48)) 0

/-- Python `int(s)`: optional surrounding whitespace, optional sign, base-10
digits; `ValueError` is modelled as `none`. -/
def pyInt (cs : List Char) : Option ℤ :=
  let t := trimWs cs
  match t with
  | '+' :: rest => if pyDigitsOk rest then some (pyDigitsVal rest) else none
  | '-' :: rest => if pyDigitsOk rest then some (-(pyDigitsVal rest : ℤ)) else none
  | _ => if pyDigitsOk t then some (pyDigitsVal t) else none

/-- Python `os.path.basename`: everything after the last `/`. Used only to
state the spec's base-name version of the step-count parse; the source
itself never takes a base name. -/
def pyBasename (path : List Char) : List Char :=
  (pySplit '/' path).getLastD []

/-- The step-count parse in `DQN.__init__`:
`int(self.params['load_file'].split('_')[-2])`, applied to the full path
string, with `IndexError`/`ValueError` modelled as `none`. -/
def parseStepFromName (path : List Char) : Option ℤ :=
  match pyGetNeg2 (pySplit '_' path) with
  | some field => pyInt field
  | none => none

/-! ### The value network (`DQN.__init__` layers and `DQN.forward`) -/

/-- `nn.ReLU`: `max(x, 0)`. -/
def relu (x : ℚ) : ℚ := max x 0

/-- Zero padding of a 2-D image (per channel): the pixel at integer
coordinates `(i, j)`, or `0` outside the `H × W` bounds. -/
def padded {C H W : ℕ} (x : Fin C → Fin H → Fin W → ℚ) (c : Fin C)
    (i j : ℤ) : ℚ :=
  if hi : 0 ≤ i ∧ i < (H : ℤ) then
    if hj : 0 ≤ j ∧ j < (W : ℤ) then
      x c ⟨i.toNat, by omega⟩ ⟨j.toNat, by omega⟩
    else 0
  else 0

/-- `nn.Conv2d` with a 3×3 kernel, stride 1 and padding 1 (the only
configuration the source instantiates): output spatial size equals input
spatial size, and each output entry is the bias plus the windowed sum of
weight times the zero-padded input. -/
def conv2d {Cin Cout H W : ℕ} (weight : Fin Cout → Fin Cin → Fin 3 → Fin 3 → ℚ)
    (bias : Fin Cout → ℚ) (x : Fin Cin → Fin H → Fin W → ℚ) :
    Fin Cout → Fin H → Fin W → ℚ :=
  fun o i j =>
    bias o + ∑ c : Fin Cin, ∑ di : Fin 3, ∑ dj : Fin 3,
      weight o c di dj *
        padded x c ((i.1 : ℤ) + (di.1 : ℤ) - 1) ((j.1 : ℤ) + (dj.1 : ℤ) - 1)

/-- `torch.flatten(x, 1)` on a `[C, H, W]` tensor: row-major index
`c * (H * W) + i * W + j`. -/
def flatten {C H W : ℕ} (x : Fin C → Fin H → Fin W → ℚ) :
    Fin (C * (H * W)) → ℚ :=
  fun v =>
    have hHW : 0 < H * W := by
      rcases Nat.eq_zero_or_pos (H * W) with h | h
      · exact absurd v.2 (by simp [h])
      · exact h
    have hW : 0 < W := by
      rcases Nat.eq_zero_or_pos W with h | h
      · exact absurd hHW (by simp [h])
      · exact h
    x ⟨v.1 / (H * W),
        Nat.div_lt_of_lt_mul (Nat.lt_of_lt_of_eq v.2 (Nat.mul_comm C (H * W)))⟩
      ⟨v.1 % (H * W) / W,
        Nat.div_lt_of_lt_mul
          (Nat.lt_of_lt_of_eq (Nat.mod_lt _ hHW) (Nat.mul_comm H W))⟩
      ⟨v.1 % W, Nat.mod_lt _ hW⟩

/-- `nn.Linear`: `out k = bias k + ∑ j, weight k j * x j`. -/
def linearLayer {nin nout : ℕ} (weight : Fin nout → Fin nin → ℚ)
    (bias : Fin nout → ℚ) (x : Fin nin → ℚ) : Fin nout → ℚ :=
  fun k => bias k + ∑ j, weight k j * x j

/-- The parameter tensors of the network built in `DQN.__init__`:
`conv1 : 6 → 16`, `conv2 : 16 → 32` (both 3×3, stride 1, padding 1),
`fc3 : 32 * width * height → 256`, `fc4 : 256 → 4`. This is exactly the
content of the module's `state_dict` (the optimizer and `global_step` are
plain attributes, not parameters, and are not part of it). -/
structure NetParams (w h : ℕ) where
  conv1_weight : Fin 16 → Fin 6 → Fin 3 → Fin 3 → ℚ
  conv1_bias : Fin 16 → ℚ
  conv2_weight : Fin 32 → Fin 16 → Fin 3 → Fin 3 → ℚ
  conv2_bias : Fin 32 → ℚ
  fc3_weight : Fin 256 → Fin (32 * (h * w)) → ℚ
  fc3_bias : Fin 256 → ℚ
  fc4_weight : Fin 4 → Fin 256 → ℚ
  fc4_bias : Fin 4 → ℚ

/-- `DQN.forward`: conv1, relu, conv2, relu, flatten, fc3, relu, fc4 (raw
Q-values, no final nonlinearity). Input is channel-first `[6, H, W]`. -/
def forward {w h : ℕ} (p : NetParams w h) (x : Fin 6 → Fin h → Fin w → ℚ) :
    Fin 4 → ℚ :=
  let x1 := fun c i j => relu (conv2d p.conv1_weight p.conv1_bias x c i j)
  let x2 := fun c i j => relu (conv2d p.conv2_weight p.conv2_bias x1 c i j)
  let xf := flatten x2
  let x3 := fun k => relu (linearLayer p.fc3_weight p.fc3_bias xf k)
  linearLayer p.fc4_weight p.fc4_bias x3

/-! ### Trainer state and checkpoint lifecycle (`DQN.__init__`, `DQN.save_ckpt`) -/

/-- What `torch.load` + `load_state_dict` find at a path: no file
(`os.path.exists` is false), a file whose deserialization raises, or a
well-formed parameter snapshot. -/
inductive FileContent (w h : ℕ) where
  | missing : FileContent w h
  | corrupt : FileContent w h
  | valid : NetParams w h → FileContent w h

/-- The mutable state of a `DQN` object: its parameter tensors, the
`discount` hyperparameter from `params`, and `global_step`. -/
structure DQNState (w h : ℕ) where
  net : NetParams w h
  discount : ℚ
  global_step : ℤ

/-- `DQN.__init__`'s checkpoint-loading tail: `global_step` starts at `0`;
when a load file is configured and exists, the state dict replaces the
fresh parameters and the step count is parsed from the full path with
`int(path.split('_')[-2])`; every exception inside the `try` block (failed
deserialization, or a failed index/parse after a successful load) is caught
and construction completes. `initNet` is the randomly initialized parameter
set, `fs` the file system. -/
def DQN_init {w h : ℕ} (discount : ℚ) (load_file : Option (List Char))
    (initNet : NetParams w h) (fs : List Char → FileContent w h) :
    DQNState w h :=
  let base : DQNState w h := ⟨initNet, discount, 0⟩
  match load_file with
  | none => base
  | some path =>
    match fs path with
    | FileContent.missing => base
    | FileContent.corrupt => base
    | FileContent.valid ckpt =>
      match parseStepFromName path with
      | some k => ⟨ckpt, discount, k⟩
      | none => ⟨ckpt, discount, 0⟩

/-- `DQN.save_ckpt`: `torch.save(self.state_dict(), filename)` writes
exactly the parameter tensors — not the optimizer state, not
`global_step`. -/
def save_ckpt {w h : ℕ} (st : DQNState w h) : NetParams w h := st.net

/-! ### The training step (`DQN.train_step`) -/

/-- One sampled minibatch, as handed to `train_step`: states and next
states in channel-last layout `[H, W, 6]`, one-hot actions, terminal flags
and rewards (all already converted to floats by the source). -/
structure Batch (w h n : ℕ) where
  bat_s : Fin n → Fin h → Fin w → Fin 6 → ℚ
  bat_a : Fin n → Fin 4 → ℚ
  bat_t : Fin n → ℚ
  bat_n : Fin n → Fin h → Fin w → Fin 6 → ℚ
  bat_r : Fin n → ℚ

/-- `tensor.permute(0, 3, 1, 2)` on one batch element: channel-last
`[H, W, C]` to channel-first `[C, H, W]`. -/
def permute {w h : ℕ} (x : Fin h → Fin w → Fin 6 → ℚ) :
    Fin 6 → Fin h → Fin w → ℚ :=
  fun c i j => x i j c

/-- `torch.max(q_next, dim=1)[0]` for one row: the maximum over the 4
action entries. -/
def qmax (f : Fin 4 → ℚ) : ℚ :=
  max (max (max (f 0) (f 1)) (f 2)) (f 3)

/-- The Bellman target `yj = bat_r + (1 - bat_t) * discount * q_t` computed
in `train_step`, where `q_t` is the per-row maximum of the network's
forward output on the permuted next states. -/
def bellmanTarget {w h n : ℕ} (discount : ℚ) (p : NetParams w h)
    (b : Batch w h n) (i : Fin n) : ℚ :=
  b.bat_r i + (1 - b.bat_t i) * discount *
    qmax (forward p (permute (b.bat_n i)))

/-- `q_pred = torch.sum(q_pred_all_actions * bat_a, dim=1)`: the one-hot
selection of the predicted Q-value for the taken action. -/
def predictedForTaken {w h n : ℕ} (p : NetParams w h) (b : Batch w h n)
    (i : Fin n) : ℚ :=
  ∑ a, forward p (permute (b.bat_s i)) a * b.bat_a i a

/-- `nn.MSELoss()` with its default mean reduction. -/
def mseLoss {n : ℕ} (pred target : Fin n → ℚ) : ℚ :=
  (∑ i, (pred i - target i) ^ 2) / n

/-- `DQN.train_step`: computes the Bellman targets on the next states, the
predictions for the taken actions, the mean-squared-error loss, applies the
optimizer update and increments `global_step`, returning the new step count
and the scalar loss. The gradient/optimizer update
(`loss.backward(); self.optimizer.step()`) is floating-point
automatic-differentiation machinery outside this value-level embedding, so
it is abstracted as an arbitrary parameter-update function `grad_update`;
every theorem below holds for all such functions. -/
def train_step {w h n : ℕ}
    (grad_update : Batch w h n → NetParams w h → NetParams w h)
    (st : DQNState w h) (b : Batch w h n) : DQNState w h × ℤ × ℚ :=
  let yj := bellmanTarget st.discount st.net b
  let q_pred := predictedForTaken st.net b
  let loss := mseLoss q_pred yj
  let newNet := grad_update b st.net
  let st2 : DQNState w h := ⟨newNet, st.discount, st.global_step + 1⟩
  (st2, st2.global_step, loss)

/-- A sequence of successful `train_step` calls with no intervening
checkpoint load. -/
def runSteps {w h n : ℕ}
    (grad_update : Batch w h n → NetParams w h → NetParams w h) :
    DQNState w h → List (Batch w h n) → DQNState w h
  | st, [] => st
  | st, b :: bs => runSteps grad_update (train_step grad_update st b).1 bs

/-! ### Concrete instances used by the witnesses -/

/-- The all-zero parameter set on a 1×1 grid. -/
def zeroNet : NetParams 1 1 :=
  ⟨fun _ _ _ _ => 0, fun _ => 0, fun _ _ _ _ => 0, fun _ => 0,
   fun _ _ => 0, fun _ => 0, fun _ _ => 0, fun _ => 0⟩

/-- A parameter set distinct from `zeroNet` (conv1 bias 1), standing in for
a loaded checkpoint. -/
def oneNet : NetParams 1 1 :=
  ⟨fun _ _ _ _ => 0, fun _ => 1, fun _ _ _ _ => 0, fun _ => 0,
   fun _ _ => 0, fun _ => 0, fun _ _ => 0, fun _ => 0⟩

/-- A batch of one all-zero transition. -/
def zeroBatch : Batch 1 1 1 :=
  ⟨fun _ _ _ _ => 0, fun _ _ => 0, fun _ => 0, fun _ _ _ _ => 0, fun _ => 0⟩

/-- A batch of one terminal transition with reward 5 and a nonzero next
state. -/
def termBatch : Batch 1 1 1 :=
  ⟨fun _ _ _ _ => 0, fun _ _ => 0, fun _ => 1, fun _ _ _ _ => 3, fun _ => 5⟩

/-- A batch of one transition whose action is the one-hot vector at
index 2. -/
def oneHotBatch : Batch 1 1 1 :=
  ⟨fun _ _ _ _ => 0, fun _ a => if a = 2 then 1 else 0, fun _ => 0,
   fun _ _ _ _ => 0, fun _ => 0⟩

/-- An optimizer update that leaves the parameters unchanged (one concrete
instance of the abstracted gradient step). -/
def idUpdate : Batch 1 1 1 → NetParams 1 1 → NetParams 1 1 := fun _ p => p

/-! ### Further concrete instances for the witnesses -/

/-- A trainer state holding `oneNet` at step 7, to be checkpointed. -/
def st0 : DQNState 1 1 := ⟨oneNet, 1/2, 7⟩

/-- A trainer state with discount 0 over the zero network. -/
def st9 : DQNState 1 1 := ⟨zeroNet, 0, 0⟩

/-- A path whose directory part contains underscores but whose base name
contains none. -/
def cePath : List Char := "runs_7_8/model".toList

/-- A path in the repository's checkpoint naming convention. -/
def path10000 : List Char := "model-smallGrid_10000_100".toList

/-- A path used for the round-trip witness. -/
def rtPath : List Char := "saves/model_3_final".toList

/-- A path used for the missing-checkpoint witness. -/
def missPath : List Char := "saves/model-smallGrid_40000_30".toList

/-- A path whose second-to-last underscore field is not an integer. -/
def mixPath : List Char := "model_a_b".toList

/-! ### Claim theorems -/

/-- C1: for every batch and row, the Bellman target computed in
`train_step` equals `reward + (1 - terminal) * discount * (max over the 4
actions of the forward output on the permuted next state)`; and whenever
`terminal[i] = 1` it equals `reward[i]` exactly, for arbitrary contents of
`nextState[i]`. -/
theorem bellman_target_rows {w h n : ℕ} (discount : ℚ) (p : NetParams w h)
    (b : Batch w h n) (i : Fin n) :
    bellmanTarget discount p b i =
      b.bat_r i + (1 - b.bat_t i) * discount *
        qmax (forward p (permute (b.bat_n i)))
    ∧ (b.bat_t i = 1 → bellmanTarget discount p b i = b.bat_r i) := by
  refine ⟨rfl, fun ht => ?_⟩
  simp [bellmanTarget, ht]

/-- Witness for C1 at a concrete terminal transition with nonzero next
state. -/
theorem bellman_target_rows_witness :
    termBatch.bat_t 0 = 1 ∧
      bellmanTarget (9/10) zeroNet termBatch 0 = termBatch.bat_r 0 :=
  ⟨rfl, (bellman_target_rows (9/10) zeroNet termBatch 0).2 rfl⟩

/-- C2: when `action[i]` is one-hot at index `k`, the one-hot selection
`∑ a, qPred[i][a] * action[i][a]` computed in `train_step` equals the raw
forward output at index `k`. -/
theorem one_hot_selection {w h n : ℕ} (p : NetParams w h) (b : Batch w h n)
    (i : Fin n) (k : Fin 4) (h1 : b.bat_a i k = 1)
    (h0 : ∀ j, j ≠ k → b.bat_a i j = 0) :
    predictedForTaken p b i = forward p (permute (b.bat_s i)) k := by
  unfold predictedForTaken
  rw [Finset.sum_eq_single k]
  · rw [h1, mul_one]
  · intro j _ hj
    rw [h0 j hj, mul_zero]
  · intro hk
    exact absurd (Finset.mem_univ k) hk

/-- Witness for C2 at a concrete batch whose action is one-hot at
index 2. -/
theorem one_hot_selection_witness :
    oneHotBatch.bat_a 0 2 = 1 ∧
      predictedForTaken zeroNet oneHotBatch 0 =
        forward zeroNet (permute (oneHotBatch.bat_s 0)) 2 :=
  ⟨rfl, one_hot_selection zeroNet oneHotBatch 0 2 rfl (by decide)⟩

/-- The step counter after a sequence of `train_step` calls is the initial
value plus the number of calls. -/
theorem runSteps_global_step {w h n : ℕ}
    (grad_update : Batch w h n → NetParams w h → NetParams w h)
    (bs : List (Batch w h n)) (st : DQNState w h) :
    (runSteps grad_update st bs).global_step = st.global_step + bs.length := by
  induction bs generalizing st with
  | nil => simp [runSteps]
  | cons b bs ih =>
    rw [runSteps, ih]
    show (train_step grad_update st b).1.global_step + (bs.length : ℤ) = _
    simp [train_step]
    ring

/-- C4: every `train_step` call increments `global_step` by exactly one and
returns the new value; after `K` successive calls the counter is the
initial value plus `K`, and it never decreases. -/
theorem global_step_monotonic {w h n : ℕ}
    (grad_update : Batch w h n → NetParams w h → NetParams w h)
    (st : DQNState w h) (b : Batch w h n) (bs : List (Batch w h n)) :
    (train_step grad_update st b).1.global_step = st.global_step + 1
    ∧ (train_step grad_update st b).2.1 = st.global_step + 1
    ∧ (runSteps grad_update st bs).global_step =
        st.global_step + bs.length
    ∧ st.global_step ≤ (runSteps grad_update st bs).global_step := by
  refine ⟨rfl, rfl, runSteps_global_step grad_update bs st, ?_⟩
  rw [runSteps_global_step grad_update bs st]
  omega

/-- C5: a saved checkpoint is exactly the parameter tensors, and loading it
into a freshly constructed network of the same architecture restores the
parameters, so the forward pass of the loaded network coincides with the
original's on every input. -/
theorem checkpoint_roundtrip {w h : ℕ} (st : DQNState w h) (d2 : ℚ)
    (path : List Char) (freshNet : NetParams w h)
    (fs : List Char → FileContent w h)
    (hfs : fs path = FileContent.valid (save_ckpt st)) :
    save_ckpt st = st.net
    ∧ (DQN_init d2 (some path) freshNet fs).net = st.net
    ∧ forward (DQN_init d2 (some path) freshNet fs).net = forward st.net := by
  have h2 : (DQN_init d2 (some path) freshNet fs).net = st.net := by
    simp only [DQN_init]
    rw [hfs]
    cases parseStepFromName path <;> rfl
  exact ⟨rfl, h2, by rw [h2]⟩

/-- Witness for C5: saving `st0` and loading it into a fresh zero network
restores `st0`'s parameters and forward function. -/
theorem checkpoint_roundtrip_witness :
    save_ckpt st0 = st0.net
    ∧ (DQN_init (1/2) (some rtPath) zeroNet
        (fun _ => FileContent.valid (save_ckpt st0))).net = st0.net
    ∧ forward (DQN_init (1/2) (some rtPath) zeroNet
        (fun _ => FileContent.valid (save_ckpt st0))).net = forward st0.net :=
  checkpoint_roundtrip st0 (1/2) rtPath zeroNet
    (fun _ => FileContent.valid (save_ckpt st0)) rfl

/-- C6 counterexample: for the path `runs_7_8/model` with a loadable
checkpoint, the code sets `global_step` to 7 (it splits the full path on
underscores), while the base name `model` has no second-to-last
underscore field at all, so the claimed base-name parse yields nothing. -/
theorem base_name_parse_counterexample :
    (DQN_init (1/2) (some cePath) zeroNet
        (fun _ => FileContent.valid oneNet)).global_step = 7
    ∧ parseStepFromName (pyBasename cePath) = none := by
  constructor
  · decide
  · decide

/-- C6 amended: the step count is obtained by splitting the checkpoint
file's full path on underscores and parsing the second-to-last field as a
base-10 integer, and `global_step` is set to that value. -/
theorem full_path_parse_amended {w h : ℕ} (d : ℚ) (path : List Char)
    (initNet ckpt : NetParams w h) (fs : List Char → FileContent w h)
    (hfs : fs path = FileContent.valid ckpt) (k : ℤ)
    (hk : parseStepFromName path = some k) :
    (DQN_init d (some path) initNet fs).global_step = k := by
  simp only [DQN_init]
  rw [hfs, hk]

/-- Witness for the amended C6: loading from a path whose base name is
`model-smallGrid_10000_100` sets `global_step` to 10000. -/
theorem full_path_parse_amended_witness :
    (DQN_init (1/2) (some path10000) zeroNet
        (fun _ => FileContent.valid oneNet)).global_step = 10000 :=
  full_path_parse_amended (1/2) path10000 zeroNet oneNet
    (fun _ => FileContent.valid oneNet) rfl 10000 (by decide)

/-- C7: when the configured load file does not exist, or when no load file
is configured, construction completes with the fresh state: the random
initial parameters and `global_step = 0`. -/
theorem missing_checkpoint_fresh {w h : ℕ} (d : ℚ) (path : List Char)
    (initNet : NetParams w h) (fs : List Char → FileContent w h)
    (hfs : fs path = FileContent.missing) :
    DQN_init d (some path) initNet fs = ⟨initNet, d, 0⟩
    ∧ DQN_init d none initNet fs = ⟨initNet, d, 0⟩ := by
  constructor
  · simp only [DQN_init]
    rw [hfs]
  · rfl

/-- Witness for C7 at a concrete path over an empty file system. -/
theorem missing_checkpoint_fresh_witness :
    DQN_init (95/100) (some missPath) zeroNet
        (fun _ => FileContent.missing) = ⟨zeroNet, 95/100, 0⟩
    ∧ DQN_init (95/100) none zeroNet
        (fun _ => FileContent.missing) = ⟨zeroNet, 95/100, 0⟩ :=
  missing_checkpoint_fresh (95/100) missPath zeroNet
    (fun _ => FileContent.missing) rfl

/-- C8: when the configured file exists but deserialization raises, the
exception is caught: construction completes with the fresh state — the
random initial parameters unchanged and `global_step = 0`. -/
theorem corrupt_checkpoint_fresh {w h : ℕ} (d : ℚ) (path : List Char)
    (initNet : NetParams w h) (fs : List Char → FileContent w h)
    (hfs : fs path = FileContent.corrupt) :
    DQN_init d (some path) initNet fs = ⟨initNet, d, 0⟩ := by
  simp only [DQN_init]
  rw [hfs]

/-- Witness for C8 at a concrete path whose file is corrupt. -/
theorem corrupt_checkpoint_fresh_witness :
    DQN_init (95/100) (some missPath) oneNet
        (fun _ => FileContent.corrupt) = ⟨oneNet, 95/100, 0⟩ :=
  corrupt_checkpoint_fresh (95/100) missPath oneNet
    (fun _ => FileContent.corrupt) rfl

/-- C9: the scalar loss returned by `train_step` is the mean over the batch
of the squared differences between prediction and target; it is
non-negative, and it is zero when prediction equals target on every row. -/
theorem loss_mse_properties {w h n : ℕ}
    (grad_update : Batch w h n → NetParams w h → NetParams w h)
    (st : DQNState w h) (b : Batch w h n) :
    0 ≤ (train_step grad_update st b).2.2
    ∧ (train_step grad_update st b).2.2 =
        (∑ i, (predictedForTaken st.net b i -
          bellmanTarget st.discount st.net b i) ^ 2) / n
    ∧ ((∀ i, predictedForTaken st.net b i =
          bellmanTarget st.discount st.net b i) →
        (train_step grad_update st b).2.2 = 0) := by
  have h2 : (train_step grad_update st b).2.2 =
      mseLoss (predictedForTaken st.net b)
        (bellmanTarget st.discount st.net b) := rfl
  refine ⟨?_, rfl, fun hp => ?_⟩
  · rw [h2]
    unfold mseLoss
    apply div_nonneg
    · exact Finset.sum_nonneg fun i _ => sq_nonneg _
    · exact Nat.cast_nonneg n
  · rw [h2]
    unfold mseLoss
    rw [Finset.sum_eq_zero fun i _ => by simp [hp i], zero_div]

/-- Witness for C9: with the zero network, discount 0 and the all-zero
batch, prediction equals target on every row and the returned loss is 0. -/
theorem loss_mse_properties_witness :
    (train_step idUpdate st9 zeroBatch).2.2 = 0 :=
  (loss_mse_properties idUpdate st9 zeroBatch).2.2 (by
    intro i
    simp [predictedForTaken, bellmanTarget, zeroBatch, st9])

/-- C10: when deserialization succeeds but the step-count parse of the path
fails, construction completes in the mixed state: the network holds the
checkpoint's parameters while `global_step` stays 0. -/
theorem loaded_params_step_zero {w h : ℕ} (d : ℚ) (path : List Char)
    (initNet ckpt : NetParams w h) (fs : List Char → FileContent w h)
    (hfs : fs path = FileContent.valid ckpt)
    (hp : parseStepFromName path = none) :
    (DQN_init d (some path) initNet fs).net = ckpt
    ∧ (DQN_init d (some path) initNet fs).global_step = 0 := by
  simp only [DQN_init]
  rw [hfs, hp]
  exact ⟨rfl, rfl⟩

/-- Witness for C10 at the path `model_a_b`, whose second-to-last field is
not an integer. -/
theorem loaded_params_step_zero_witness :
    (DQN_init (1/2) (some mixPath) zeroNet
        (fun _ => FileContent.valid oneNet)).net = oneNet
    ∧ (DQN_init (1/2) (some mixPath) zeroNet
        (fun _ => FileContent.valid oneNet)).global_step = 0 :=
  loaded_params_step_zero (1/2) mixPath zeroNet oneNet
    (fun _ => FileContent.valid oneNet) rfl (by decide)
